import Mathlib

/-!
Verification of the CRUD route adapters of fastapi-crudrouter against their
natural-language specification.

The two adapters under `fastapi_crudrouter/core` are embedded shallowly:

* a persisted row, and likewise a request payload obtained from a schema's
  `dict()` serialization, is an association list from field names to values
  (`Row`), with lookup, single-key assignment, merge and key-exclusion
  mirroring Python dict semantics;
* the backing store is a `List Row` in backend-native order;
* each route closure becomes a function from its request arguments and the
  store to an `Except RErr` result; results of backend `execute`/`save`
  calls that the routes merely inspect (row counts, assigned keys) are
  passed in as explicit arguments, since the routes treat them opaquely;
* `raise` of an HTTP error becomes the `Except.error` branch carrying `RErr`.
-/

set_option autoImplicit false

/-- A row or payload: a field-name-to-value mapping represented as an
association list whose earliest entry for a key gives its value. -/
abbrev Row : Type := List (String × Int)

/-- Dict lookup: the value of the first entry carrying the given key. -/
def dget : Row → String → Option Int
  | [], _ => none
  | (k, v) :: rest, key => if k = key then some v else dget rest key

/-- Dict single-key assignment: overwrite the entry for the key when present,
append it otherwise, as Python item assignment does. -/
def dset : Row → String → Int → Row
  | [], key, v => [(key, v)]
  | (k, w) :: rest, key, v =>
      if k = key then (k, v) :: rest else (k, w) :: dset rest key v

/-- Dict merge with the second argument winning, matching a Python dict
display that splats `upd` after the entries of `d`. -/
def dmerge (d upd : Row) : Row :=
  upd.foldl (fun acc kv => dset acc kv.1 kv.2) d

/-- Dict key exclusion, as the `exclude` option of payload serialization. -/
def dremove (d : Row) (key : String) : Row :=
  d.filter (fun kv => kv.1 != key)

/-- The error outcomes a route can end in: the not-found error (HTTP 404),
a conflict error (HTTP 422) carrying its message, or a backend exception
that no handler catches and that propagates out of the route. -/
inductive RErr : Type where
  | notFound : RErr
  | conflict : String → RErr
  | backendErr : RErr
deriving DecidableEq

namespace Databases

/-- Whether a row satisfies the where-clause comparing the primary-key
column to the given value. -/
def rowMatches (pk : String) (v : Int) (r : Row) : Bool :=
  dget r pk == some v

/-- The rows a select filtered on the primary-key column yields. -/
def selectWhere (pk : String) (v : Int) (rows : List Row) : List Row :=
  rows.filter (rowMatches pk v)

/-- How many rows a statement filtered on the primary-key column affects. -/
def affected (pk : String) (v : Int) (rows : List Row) : Nat :=
  (selectWhere pk v rows).length

/-- The one-row fetch of a filtered select: its first result, when any. -/
def fetch_one (pk : String) (v : Int) (rows : List Row) : Option Row :=
  (selectWhere pk v rows).head?

/-- A pagination limit applied to a result set; absent means no limit. -/
def applyLimit : Option Nat → List Row → List Row
  | none, l => l
  | some n, l => l.take n

/-- The list route: a select with the pagination offset and limit applied. -/
def get_all (skip : Nat) (limit : Option Nat) (rows : List Row) : List Row :=
  applyLimit limit (rows.drop skip)

/-- The get-one route: a select filtered by primary-key equality, fetching
one row; a missing or falsy (empty-mapping) result raises not-found. -/
def get_one (pk : String) (item_id : Int) (rows : List Row) : Except RErr Row :=
  match fetch_one pk item_id rows with
  | some m => if m.isEmpty then .error .notFound else .ok m
  | none => .error .notFound

/-- The create route: executes the insert of the payload values, any raised
backend error becoming the 422 conflict; on success the store gains a row of
the payload carrying the assigned primary-key value, and the route returns
the dict of the primary key mapped to the execute result overlaid with the
payload. The execute outcome is the `execRes` argument. -/
def create (pk : String) (payload : Row) (execRes : Except Unit Int)
    (rows : List Row) : Except RErr (Row × List Row) :=
  match execRes with
  | .error _ => .error (.conflict "Key already exists")
  | .ok rid =>
      .ok (dmerge [(pk, rid)] payload, rows ++ [dmerge payload [(pk, rid)]])

/-- The rows after the execution of an update filtered on the primary-key
column, the given values applied to every matching row. -/
def execUpdate (pk : String) (item_id : Int) (vals : Row) (rows : List Row) :
    List Row :=
  rows.map (fun r => if rowMatches pk item_id r then dmerge r vals else r)

/-- The update route: executes an update filtered by primary-key equality
with the payload values excluding the primary key, then truthy-tests the
execute result `rid` — falsy raises not-found, truthy returns the dict of
the primary key mapped to `rid` overlaid with the full payload, with no
re-fetch of the row. -/
def update (pk : String) (item_id : Int) (payload : Row) (rid : Int)
    (rows : List Row) : Except RErr (Row × List Row) :=
  if rid ≠ 0 then
    .ok (dmerge [(pk, rid)] payload,
         execUpdate pk item_id (dremove payload pk) rows)
  else .error .notFound

/-- The rows after the execution of a delete with no where clause. -/
def execDeleteAll (_rows : List Row) : List Row := []

/-- The delete-all route: executes an unfiltered delete, then returns the
list route's result at skip zero and no limit over the emptied store. -/
def delete_all (rows : List Row) : List Row × List Row :=
  let emptied := execDeleteAll rows
  (get_all 0 none emptied, emptied)

/-- The rows after the execution of a delete filtered on the primary-key
column. -/
def execDelete (pk : String) (item_id : Int) (rows : List Row) : List Row :=
  rows.filter (fun r => !rowMatches pk item_id r)

/-- The delete-one route: fetches the row through the get-one route, whose
not-found propagates; then executes the filtered delete and truthy-tests its
result `rid`, returning the pre-fetched row when `rid` is truthy and raising
not-found when it is falsy. -/
def delete_one (pk : String) (item_id : Int) (rid : Int) (rows : List Row) :
    Except RErr (Row × List Row) :=
  match get_one pk item_id rows with
  | .error e => .error e
  | .ok row =>
      if rid ≠ 0 then .ok (row, execDelete pk item_id rows)
      else .error .notFound

end Databases

namespace Tortoise

/-- Whether a stored instance satisfies the ORM filter on the keyword
argument named id — the literal field name the source passes. -/
def matchesId (item_id : Int) (r : Row) : Bool :=
  dget r "id" == some item_id

/-- The list route: all instances, the offset always applied and the limit
applied only when it is truthy (present and nonzero). -/
def get_all (skip : Nat) (limit : Option Nat) (rows : List Row) : List Row :=
  let q := rows.drop skip
  match limit with
  | some l => if l ≠ 0 then q.take l else q
  | none => q

/-- The get-one route: filters the store on the field named id, takes the
first match, and raises not-found when the filter finds nothing. -/
def get_one (item_id : Int) (rows : List Row) : Except RErr Row :=
  match (rows.filter (matchesId item_id)).head? with
  | some m => .ok m
  | none => .error .notFound

/-- The get-one behaviour the specification describes: a filter on the
adapter's derived primary-key column, whatever its name. Written from the
specification's words, for comparison with the source-derived `get_one`. -/
def get_one_by_pk (pkName : String) (item_id : Int) (rows : List Row) :
    Except RErr Row :=
  match (rows.filter (fun r => dget r pkName == some item_id)).head? with
  | some m => .ok m
  | none => .error .notFound

/-- The create route: constructs the instance from the payload and saves it;
the save either raises — and the route installs no handler, so the backend
error propagates — or persists the instance with its assigned primary-key
value, which the route returns. The save outcome is the `saveRes` argument
and `pkName` the derived primary-key column. -/
def create (pkName : String) (payload : Row) (saveRes : Except Unit Int)
    (rows : List Row) : Except RErr (Row × List Row) :=
  match saveRes with
  | .error _ => .error .backendErr
  | .ok rid =>
      let saved := dmerge payload [(pkName, rid)]
      .ok (saved, rows ++ [saved])

/-- The rows after the ORM bulk update filtered on the field named id, every
matching instance taking the payload's set fields. -/
def execUpdate (item_id : Int) (vals : Row) (rows : List Row) : List Row :=
  rows.map (fun r => if matchesId item_id r then dmerge r vals else r)

/-- The update route: runs the filtered bulk update with the payload's set
fields, then re-fetches and returns the canonical record through the
get-one route, whose not-found propagates. -/
def update (item_id : Int) (payload : Row) (rows : List Row) :
    Except RErr (Row × List Row) :=
  let updated := execUpdate item_id payload rows
  match get_one item_id updated with
  | .ok m => .ok (m, updated)
  | .error e => .error e

/-- The delete-all route: deletes every instance, then returns the list
route's result at skip zero and no limit over the emptied store. -/
def delete_all (_rows : List Row) : List Row × List Row :=
  let emptied : List Row := []
  (get_all 0 none emptied, emptied)

/-- The rows after the ORM delete filtered on the field named id. -/
def execDelete (item_id : Int) (rows : List Row) : List Row :=
  rows.filter (fun r => !matchesId item_id r)

/-- The delete-one route: fetches the record through the get-one route,
whose not-found propagates; then executes the filtered delete, whose result
`delRes` the source discards, and returns the pre-fetched record. -/
def delete_one (item_id : Int) (_delRes : Int) (rows : List Row) :
    Except RErr (Row × List Row) :=
  match get_one item_id rows with
  | .error e => .error e
  | .ok m => .ok (m, execDelete item_id rows)

end Tortoise

/-! ### Dictionary lemmas -/

theorem dget_dset_self (d : Row) (k : String) (v : Int) :
    dget (dset d k v) k = some v := by
  induction d with
  | nil => simp [dset, dget]
  | cons kv rest ih =>
      obtain ⟨k1, w⟩ := kv
      by_cases h : k1 = k
      · simp [dset, dget, h]
      · simp [dset, dget, h, ih]

theorem dget_dset_ne (d : Row) (k key : String) (v : Int) (h : key ≠ k) :
    dget (dset d k v) key = dget d key := by
  induction d with
  | nil => simp [dset, dget, Ne.symm h]
  | cons kv rest ih =>
      obtain ⟨k1, w⟩ := kv
      by_cases h1 : k1 = k
      · subst h1
        simp [dset, dget, Ne.symm h]
      · by_cases h2 : k1 = key <;> simp [dset, dget, h1, h2, ih, h]

theorem dget_eq_none_of_not_mem (d : Row) (key : String)
    (h : key ∉ d.map Prod.fst) : dget d key = none := by
  induction d with
  | nil => rfl
  | cons kv rest ih =>
      obtain ⟨k1, w⟩ := kv
      simp only [List.map_cons, List.mem_cons] at h
      push_neg at h
      simp [dget, Ne.symm h.1, ih h.2]

theorem dmerge_nil (d : Row) : dmerge d [] = d := rfl

theorem dmerge_cons (d : Row) (k : String) (v : Int) (rest : Row) :
    dmerge d ((k, v) :: rest) = dmerge (dset d k v) rest := rfl

theorem dmerge_single (d : Row) (k : String) (v : Int) :
    dmerge d [(k, v)] = dset d k v := rfl

theorem dget_dmerge_of_none (d u : Row) (key : String)
    (h : dget u key = none) :
    dget (dmerge d u) key = dget d key := by
  induction u generalizing d with
  | nil => rfl
  | cons kv rest ih =>
      obtain ⟨k1, v1⟩ := kv
      have hne : k1 ≠ key := by
        intro hk
        simp [dget, hk] at h
      have hrest : dget rest key = none := by
        simpa [dget, hne] using h
      rw [dmerge_cons, ih (dset d k1 v1) hrest,
        dget_dset_ne _ _ _ _ (Ne.symm hne)]

theorem dget_dmerge_of_nodup (d u : Row) (key : String)
    (hu : (u.map Prod.fst).Nodup) :
    dget (dmerge d u) key
      = match dget u key with
        | some v => some v
        | none => dget d key := by
  induction u generalizing d with
  | nil => rfl
  | cons kv rest ih =>
      obtain ⟨k1, v1⟩ := kv
      simp only [List.map_cons, List.nodup_cons] at hu
      rw [dmerge_cons, ih (dset d k1 v1) hu.2]
      by_cases hk : k1 = key
      · subst hk
        have hn : dget rest k1 = none := dget_eq_none_of_not_mem rest k1 hu.1
        simp [dget, hn, dget_dset_self]
      · cases hrest : dget rest key with
        | some v => simp [dget, hk, hrest]
        | none => simp [dget, hk, hrest, dget_dset_ne _ _ _ _ (Ne.symm hk)]

theorem row_not_empty_of_dget (r : Row) (key : String) (v : Int)
    (h : dget r key = some v) : r.isEmpty = false := by
  cases r with
  | nil => simp [dget] at h
  | cons kv rest => rfl

/-! ### Adapter-level helper lemmas -/

theorem databases_fetch_one_none (pk : String) (v : Int) (rows : List Row)
    (h : Databases.affected pk v rows = 0) :
    Databases.fetch_one pk v rows = none := by
  unfold Databases.fetch_one
  have hnil : Databases.selectWhere pk v rows = [] := List.length_eq_zero.mp h
  rw [hnil]
  rfl

theorem databases_get_one_notFound (pk : String) (v : Int) (rows : List Row)
    (h : Databases.affected pk v rows = 0) :
    Databases.get_one pk v rows = .error .notFound := by
  simp [Databases.get_one, databases_fetch_one_none pk v rows h]

theorem databases_get_one_ok (pk : String) (v : Int) (rows : List Row) (m : Row)
    (h : Databases.fetch_one pk v rows = some m) :
    Databases.get_one pk v rows = .ok m := by
  have hmem : m ∈ Databases.selectWhere pk v rows := by
    unfold Databases.fetch_one at h
    cases hs : Databases.selectWhere pk v rows with
    | nil => rw [hs] at h; simp at h
    | cons a tail =>
        rw [hs] at h
        simp only [List.head?_cons, Option.some.injEq] at h
        exact h ▸ List.mem_cons_self a tail
  have hmatch : Databases.rowMatches pk v m = true :=
    (List.mem_filter.mp hmem).2
  have hget : dget m pk = some v := by
    simpa [Databases.rowMatches] using hmatch
  have hne : m.isEmpty = false := row_not_empty_of_dget m pk v hget
  simp [Databases.get_one, h, hne]

theorem databases_affected_ne_zero (pk : String) (v : Int) (rows : List Row)
    (m : Row) (h : Databases.fetch_one pk v rows = some m) :
    Databases.affected pk v rows ≠ 0 := by
  intro h0
  rw [databases_fetch_one_none pk v rows h0] at h
  cases h

theorem tortoise_get_one_notFound_iff (item_id : Int) (rows : List Row) :
    Tortoise.get_one item_id rows = .error .notFound
      ↔ rows.filter (Tortoise.matchesId item_id) = [] := by
  cases h : (rows.filter (Tortoise.matchesId item_id)).head? with
  | none =>
      have hnil : rows.filter (Tortoise.matchesId item_id) = [] := by
        simpa [List.head?_eq_none_iff] using h
      simp [Tortoise.get_one, h, hnil]
  | some m =>
      have hne : rows.filter (Tortoise.matchesId item_id) ≠ [] := by
        intro hnil
        rw [hnil] at h
        simp at h
      simp [Tortoise.get_one, h, hne]

theorem tortoise_get_one_ok (item_id : Int) (rows : List Row) (m : Row)
    (h : (rows.filter (Tortoise.matchesId item_id)).head? = some m) :
    Tortoise.get_one item_id rows = .ok m := by
  simp [Tortoise.get_one, h]

theorem tortoise_execUpdate_no_match (item_id : Int) (vals : Row)
    (rows : List Row) (h : rows.filter (Tortoise.matchesId item_id) = []) :
    Tortoise.execUpdate item_id vals rows = rows := by
  induction rows with
  | nil => rfl
  | cons r rest ih =>
      by_cases hr : Tortoise.matchesId item_id r = true
      · rw [List.filter_cons_of_pos hr] at h
        cases h
      · rw [List.filter_cons_of_neg (by simpa using hr)] at h
        show (if Tortoise.matchesId item_id r then dmerge r vals else r)
            :: Tortoise.execUpdate item_id vals rest = r :: rest
        rw [if_neg hr, ih h]

/-! ### Claim theorems -/

/-- C1: for every primary-key value with no matching record in the backing
store, the get-one, update and delete-one routes each raise the not-found
error, on both the query-builder adapter (whose update execution reports the
affected row count) and the active-record adapter. -/
theorem C1_missing_id_raises_notFound
    (pk : String) (item_id : Int) (payload payloadA : Row)
    (rowsQ rowsA : List Row) (ridD delRes : Int)
    (hQ : Databases.affected pk item_id rowsQ = 0)
    (hA : rowsA.filter (Tortoise.matchesId item_id) = []) :
    Databases.get_one pk item_id rowsQ = .error .notFound
    ∧ Databases.update pk item_id payload
        ((Databases.affected pk item_id rowsQ : Nat) : Int) rowsQ
        = .error .notFound
    ∧ Databases.delete_one pk item_id ridD rowsQ = .error .notFound
    ∧ Tortoise.get_one item_id rowsA = .error .notFound
    ∧ Tortoise.update item_id payloadA rowsA = .error .notFound
    ∧ Tortoise.delete_one item_id delRes rowsA = .error .notFound := by
  have hg : Databases.get_one pk item_id rowsQ = .error .notFound :=
    databases_get_one_notFound pk item_id rowsQ hQ
  have hgA : Tortoise.get_one item_id rowsA = .error .notFound :=
    (tortoise_get_one_notFound_iff item_id rowsA).mpr hA
  refine ⟨hg, ?_, ?_, hgA, ?_, ?_⟩
  · simp [Databases.update, hQ]
  · simp [Databases.delete_one, hg]
  · unfold Tortoise.update
    rw [tortoise_execUpdate_no_match item_id payloadA rowsA hA]
    simp [hgA]
  · simp [Tortoise.delete_one, hgA]

/-- C1 witness: a concrete store in which the requested key is absent. -/
theorem C1_missing_id_raises_notFound_witness :
    Databases.get_one "id" 7 [[("id", 1)]] = .error .notFound
    ∧ Databases.update "id" 7 [("x", 3)] 0 [[("id", 1)]] = .error .notFound
    ∧ Databases.delete_one "id" 7 1 [[("id", 1)]] = .error .notFound
    ∧ Tortoise.get_one 7 [[("id", 2)]] = .error .notFound
    ∧ Tortoise.update 7 [("x", 3)] [[("id", 2)]] = .error .notFound
    ∧ Tortoise.delete_one 7 1 [[("id", 2)]] = .error .notFound := by
  have h := C1_missing_id_raises_notFound "id" 7 [("x", 3)] [("x", 3)]
      [[("id", 1)]] [[("id", 2)]] 1 1 (by decide) (by decide)
  exact ⟨h.1, h.2.1, h.2.2.1, h.2.2.2.1, h.2.2.2.2.1, h.2.2.2.2.2⟩

/-- C6: on both adapters delete-all empties the store and returns the list
route's result at skip zero and no limit, so it returns the empty sequence
and a subsequent list call over the new store is empty as well. -/
theorem C6_delete_all_empties (rowsQ rowsA : List Row) :
    (Databases.delete_all rowsQ).2 = []
    ∧ (Databases.delete_all rowsQ).1 = []
    ∧ Databases.get_all 0 none (Databases.delete_all rowsQ).2 = []
    ∧ (Tortoise.delete_all rowsA).2 = []
    ∧ (Tortoise.delete_all rowsA).1 = []
    ∧ Tortoise.get_all 0 none (Tortoise.delete_all rowsA).2 = [] :=
  ⟨rfl, rfl, rfl, rfl, rfl, rfl⟩

/-- C7: the active-record list route always applies the offset and applies
the limit only when it is truthy, so a zero limit behaves as no limit. -/
theorem C7_limit_truthiness (skip : Nat) (rows : List Row) :
    Tortoise.get_all skip (some 0) rows = Tortoise.get_all skip none rows
    ∧ Tortoise.get_all skip none rows = rows.drop skip
    ∧ ∀ l : Nat, l ≠ 0 →
        Tortoise.get_all skip (some l) rows = (rows.drop skip).take l := by
  refine ⟨rfl, rfl, fun l hl => ?_⟩
  simp [Tortoise.get_all, hl]

/-- C7 witness: a three-row store, offset one, with limits zero and one. -/
theorem C7_limit_truthiness_witness :
    Tortoise.get_all 1 (some 0) [[("id", 1)], [("id", 2)], [("id", 3)]]
      = Tortoise.get_all 1 none [[("id", 1)], [("id", 2)], [("id", 3)]]
    ∧ Tortoise.get_all 1 (some 1) [[("id", 1)], [("id", 2)], [("id", 3)]]
      = [[("id", 2)]] := by
  have h := C7_limit_truthiness 1 [[("id", 1)], [("id", 2)], [("id", 3)]]
  refine ⟨h.1, ?_⟩
  rw [h.2.2 1 (by decide)]
  rfl

/-- C10: the active-record delete-one raises not-found exactly when its
initial get-one does; the delete execution's result is never inspected, the
pre-fetched record being returned whatever that result reports. -/
theorem C10_delete_result_ignored (item_id : Int) (rows : List Row)
    (delRes delRes2 : Int) :
    Tortoise.delete_one item_id delRes rows
      = Tortoise.delete_one item_id delRes2 rows
    ∧ (Tortoise.delete_one item_id delRes rows = .error .notFound
        ↔ Tortoise.get_one item_id rows = .error .notFound)
    ∧ ∀ m : Row, Tortoise.get_one item_id rows = .ok m →
        Tortoise.delete_one item_id delRes rows
          = .ok (m, Tortoise.execDelete item_id rows) := by
  refine ⟨rfl, ?_, fun m hm => by simp [Tortoise.delete_one, hm]⟩
  unfold Tortoise.delete_one
  cases hg : Tortoise.get_one item_id rows with
  | ok m => simp
  | error e => simp

/-- C10 witness: a one-row store, the delete execution reporting zero. -/
theorem C10_delete_result_ignored_witness :
    Tortoise.delete_one 1 0 [[("id", 1)]] = Tortoise.delete_one 1 5 [[("id", 1)]]
    ∧ Tortoise.delete_one 1 0 [[("id", 1)]] = .ok ([("id", 1)], []) := by
  have h := C10_delete_result_ignored 1 [[("id", 1)]] 0 5
  refine ⟨h.1, ?_⟩
  have h2 := h.2.2 [("id", 1)] (by rfl)
  rw [h2]
  rfl

/-- C2 counterexample: on the active-record adapter a backend error during
the insert propagates as an uncaught backend error, not as the 422 conflict
the claim requires of either adapter. -/
theorem C2_counterexample :
    Tortoise.create "id" [("x", 1)] (.error ()) [] = .error .backendErr
    ∧ RErr.backendErr ≠ RErr.conflict "Key already exists" :=
  ⟨rfl, by decide⟩

/-- C2 (amended): on the query-builder adapter any backend error during the
insert yields the 422 conflict with message "Key already exists", and success
returns the payload fields merged with the newly assigned primary-key value;
on the active-record adapter a backend error propagates uncaught instead of
becoming the conflict, while success likewise returns the payload fields
together with the assigned primary-key value. -/
theorem C2_create_error_and_success
    (pk : String) (payload : Row) (rows : List Row) (rid : Int)
    (hnd : (payload.map Prod.fst).Nodup)
    (hpk : dget payload pk = none) :
    Databases.create pk payload (.error ()) rows
      = .error (.conflict "Key already exists")
    ∧ Tortoise.create pk payload (.error ()) rows = .error .backendErr
    ∧ Databases.create pk payload (.ok rid) rows
        = .ok (dmerge [(pk, rid)] payload, rows ++ [dmerge payload [(pk, rid)]])
    ∧ dget (dmerge [(pk, rid)] payload) pk = some rid
    ∧ (∀ k, k ≠ pk → dget (dmerge [(pk, rid)] payload) k = dget payload k)
    ∧ Tortoise.create pk payload (.ok rid) rows
        = .ok (dmerge payload [(pk, rid)], rows ++ [dmerge payload [(pk, rid)]])
    ∧ dget (dmerge payload [(pk, rid)]) pk = some rid
    ∧ (∀ k, k ≠ pk → dget (dmerge payload [(pk, rid)]) k = dget payload k) := by
  refine ⟨rfl, rfl, rfl, ?_, ?_, rfl, ?_, ?_⟩
  · rw [dget_dmerge_of_none _ _ _ hpk]
    simp [dget]
  · intro k hk
    rw [dget_dmerge_of_nodup _ _ _ hnd]
    cases hc : dget payload k with
    | some v => rfl
    | none => simp [dget, Ne.symm hk]
  · rw [dmerge_single, dget_dset_self]
  · intro k hk
    rw [dmerge_single, dget_dset_ne _ _ _ _ hk]

/-- C2 witness: a one-field payload, the assigned key being three. -/
theorem C2_create_error_and_success_witness :
    Databases.create "id" [("x", 5)] (.error ()) []
      = .error (.conflict "Key already exists")
    ∧ Tortoise.create "id" [("x", 5)] (.error ()) [] = .error .backendErr
    ∧ dget (dmerge [("id", (3 : Int))] [("x", 5)]) "id" = some 3
    ∧ dget (dmerge [("x", (5 : Int))] [("id", 3)]) "x"
        = dget [("x", (5 : Int))] "x" := by
  have h := C2_create_error_and_success "id" [("x", 5)] [] 3 (by decide) (by decide)
  exact ⟨h.1, h.2.1, h.2.2.2.1, h.2.2.2.2.2.2.2 "x" (by decide)⟩

/-- C3 counterexample: for a model whose primary-key column is named key,
the active-record get-one filters on the literal field name id rather than
on the derived primary key, so it misses the record whose primary key
carries the requested value while the specified behaviour returns it. -/
theorem C3_counterexample :
    Tortoise.get_one 5 [[("key", 5)]] = .error .notFound
    ∧ Tortoise.get_one_by_pk "key" 5 [[("key", 5)]] = .ok [("key", 5)] :=
  ⟨rfl, rfl⟩

/-- C3 (amended): the active-record get-one filters on the field literally
named id; when the model's derived primary-key column is named id this is
exactly the claimed filter by primary key equal to the path value, with
not-found raised precisely when no record's primary-key field carries it. -/
theorem C3_get_one_filters_literal_id
    (pkName : String) (item_id : Int) (rows : List Row)
    (hpk : pkName = "id") :
    Tortoise.get_one item_id rows = Tortoise.get_one_by_pk pkName item_id rows
    ∧ (Tortoise.get_one item_id rows = .error .notFound
        ↔ ∀ r ∈ rows, dget r pkName ≠ some item_id) := by
  subst hpk
  constructor
  · rfl
  · rw [tortoise_get_one_notFound_iff]
    simp [Tortoise.matchesId, List.filter_eq_nil_iff]

/-- C3 witness: a store whose sole record has primary-key column id. -/
theorem C3_get_one_filters_literal_id_witness :
    Tortoise.get_one 4 [[("id", 4)]] = Tortoise.get_one_by_pk "id" 4 [[("id", 4)]]
    ∧ Tortoise.get_one 9 [[("id", 4)]] = .error .notFound := by
  refine ⟨(C3_get_one_filters_literal_id "id" 4 [[("id", 4)]] rfl).1, ?_⟩
  exact (C3_get_one_filters_literal_id "id" 9 [[("id", 4)]] rfl).2.mpr (by decide)

/-- C4: the query-builder update runs an update filtered by primary-key
equality carrying the payload minus the primary key; a reported zero
affected-row count raises not-found, and otherwise the route returns the
payload fields overlaid on the primary key mapped to the execution result,
without re-fetching, so fields absent from the payload are absent from the
returned record. -/
theorem C4_databases_update_no_refetch
    (pk : String) (item_id : Int) (payload : Row) (rows : List Row) :
    (Databases.affected pk item_id rows = 0 →
        Databases.update pk item_id payload
          ((Databases.affected pk item_id rows : Nat) : Int) rows
          = .error .notFound)
    ∧ (∀ rid : Int, rid ≠ 0 →
        Databases.update pk item_id payload rid rows
          = .ok (dmerge [(pk, rid)] payload,
                 Databases.execUpdate pk item_id (dremove payload pk) rows))
    ∧ (∀ rid : Int, ∀ k : String, k ≠ pk → dget payload k = none →
        dget (dmerge [(pk, rid)] payload) k = none) := by
  refine ⟨fun h0 => by simp [Databases.update, h0],
    fun rid hr => by simp [Databases.update, hr], ?_⟩
  intro rid k hk hnone
  rw [dget_dmerge_of_none _ _ _ hnone]
  simp [dget, Ne.symm hk]

/-- C4 witness: updating the row with key one, the execution reporting one
affected row, and the missing-key case reporting zero. -/
theorem C4_databases_update_no_refetch_witness :
    Databases.update "id" 1 [("x", 9)] 1 [[("id", 1), ("x", 2)]]
      = .ok ([("id", 1), ("x", 9)], [[("id", 1), ("x", 9)]])
    ∧ dget (dmerge [("id", (1 : Int))] [("x", 9)]) "y" = none
    ∧ Databases.update "id" 7 [("x", 9)] 0 [[("id", 1), ("x", 2)]]
      = .error .notFound := by
  have h := C4_databases_update_no_refetch "id" 1 [("x", 9)] [[("id", 1), ("x", 2)]]
  have h7 := C4_databases_update_no_refetch "id" 7 [("x", 9)] [[("id", 1), ("x", 2)]]
  refine ⟨?_, h.2.2 1 "y" (by decide) (by decide), ?_⟩
  · rw [h.2.1 1 (by decide)]
    rfl
  · exact h7.1 (by decide)

/-- C5: for an identifier present in the store, delete-one returns the
record exactly as fetched before the deletion on both adapters; on the
query-builder adapter the order is fetch then delete, and a delete execution
reporting zero affected rows raises not-found although the fetch
succeeded. -/
theorem C5_delete_one_returns_prior_record
    (pk : String) (item_id : Int) (rows rowsA : List Row)
    (delRes : Int) (m mA : Row)
    (hm : Databases.fetch_one pk item_id rows = some m)
    (hA : Tortoise.get_one item_id rowsA = .ok mA) :
    Databases.delete_one pk item_id
        ((Databases.affected pk item_id rows : Nat) : Int) rows
      = .ok (m, Databases.execDelete pk item_id rows)
    ∧ Databases.delete_one pk item_id 0 rows = .error .notFound
    ∧ Tortoise.delete_one item_id delRes rowsA
      = .ok (mA, Tortoise.execDelete item_id rowsA) := by
  have hg := databases_get_one_ok pk item_id rows m hm
  have hne := databases_affected_ne_zero pk item_id rows m hm
  have hne2 : ((Databases.affected pk item_id rows : Nat) : Int) ≠ 0 := by
    exact_mod_cast hne
  refine ⟨?_, ?_, ?_⟩
  · simp [Databases.delete_one, hg, hne2]
  · simp [Databases.delete_one, hg]
  · simp [Tortoise.delete_one, hA]

/-- C5 witness: one-row stores holding the requested key, the query-builder
delete reporting one affected row, the active-record delete reporting
zero. -/
theorem C5_delete_one_returns_prior_record_witness :
    Databases.delete_one "id" 1 1 [[("id", 1), ("x", 2)]]
      = .ok ([("id", 1), ("x", 2)], [])
    ∧ Databases.delete_one "id" 1 0 [[("id", 1), ("x", 2)]] = .error .notFound
    ∧ Tortoise.delete_one 1 0 [[("id", 1), ("y", 3)]]
      = .ok ([("id", 1), ("y", 3)], []) := by
  have h := C5_delete_one_returns_prior_record "id" 1 [[("id", 1), ("x", 2)]]
      [[("id", 1), ("y", 3)]] 0 [("id", 1), ("x", 2)] [("id", 1), ("y", 3)]
      rfl rfl
  exact ⟨h.1, h.2.1, h.2.2⟩

/-- C9: the query-builder update builds its response by overlaying the full
payload on the singleton dict mapping the primary key to the execute result,
so a payload containing the primary-key field overrides that result, and the
path identifier never reaches the returned record. -/
theorem C9_update_payload_overrides_pk
    (pk : String) (item_id : Int) (payload : Row) (rid : Int)
    (rows : List Row) (v : Int)
    (hv : dget payload pk = some v)
    (hnd : (payload.map Prod.fst).Nodup)
    (hrid : rid ≠ 0) :
    Databases.update pk item_id payload rid rows
      = .ok (dmerge [(pk, rid)] payload,
             Databases.execUpdate pk item_id (dremove payload pk) rows)
    ∧ dget (dmerge [(pk, rid)] payload) pk = some v
    ∧ ∀ j : Int, (Databases.update pk j payload rid rows).map Prod.fst
        = (Databases.update pk item_id payload rid rows).map Prod.fst := by
  refine ⟨by simp [Databases.update, hrid], ?_,
    fun j => by simp [Databases.update, hrid, Except.map]⟩
  rw [dget_dmerge_of_nodup _ _ _ hnd, hv]

/-- C9 witness: a payload carrying primary-key value forty-two, the path
parameter three and the execute result seven. -/
theorem C9_update_payload_overrides_pk_witness :
    Databases.update "id" 3 [("id", 42), ("x", 1)] 7 []
      = .ok ([("id", 42), ("x", 1)], [])
    ∧ dget (dmerge [("id", (7 : Int))] [("id", 42), ("x", 1)]) "id"
        = some 42 := by
  have h := C9_update_payload_overrides_pk "id" 3 [("id", 42), ("x", 1)] 7 []
      42 (by decide) (by decide) (by decide)
  exact ⟨h.1, h.2.1⟩

/-- The get-one route succeeds with a record exactly when that record heads
the filtered store. -/
theorem tortoise_get_one_ok_iff (item_id : Int) (rows : List Row) (m : Row) :
    Tortoise.get_one item_id rows = .ok m
      ↔ (rows.filter (Tortoise.matchesId item_id)).head? = some m := by
  unfold Tortoise.get_one
  cases hh : (rows.filter (Tortoise.matchesId item_id)).head? with
  | none => simp
  | some x => simp

/-- When the payload leaves the id field unset, filtering the updated store
on the id field updates each previously matching record in place. -/
theorem tortoise_filter_execUpdate (item_id : Int) (vals : Row)
    (rows : List Row) (hid : dget vals "id" = none) :
    (Tortoise.execUpdate item_id vals rows).filter (Tortoise.matchesId item_id)
      = (rows.filter (Tortoise.matchesId item_id)).map
          (fun r => dmerge r vals) := by
  induction rows with
  | nil => rfl
  | cons r rest ih =>
      by_cases hr : Tortoise.matchesId item_id r = true
      · have hm : Tortoise.matchesId item_id (dmerge r vals) = true := by
          unfold Tortoise.matchesId at *
          rw [dget_dmerge_of_none _ _ _ hid]
          exact hr
        show ((if Tortoise.matchesId item_id r then dmerge r vals else r)
            :: Tortoise.execUpdate item_id vals rest).filter
              (Tortoise.matchesId item_id) = _
        rw [if_pos hr, List.filter_cons_of_pos hm, List.filter_cons_of_pos hr,
          List.map_cons, ih]
      · show ((if Tortoise.matchesId item_id r then dmerge r vals else r)
            :: Tortoise.execUpdate item_id vals rest).filter
              (Tortoise.matchesId item_id) = _
        rw [if_neg hr, List.filter_cons_of_neg (by simpa using hr),
          List.filter_cons_of_neg (by simpa using hr), ih]

/-- C8: round-trip — on the query-builder adapter, creating an accepted
payload and then fetching the returned primary-key value yields the stored
record, whose non-key fields equal the payload's; on the active-record
adapter the record returned by update is the canonical post-update record
the get-one re-fetch yields, and its fields at every payload key equal the
payload's values. -/
theorem C8_create_get_one_round_trip
    (pk : String) (payload : Row) (rid : Int) (rows : List Row)
    (rec2 : Row) (rows2 : List Row)
    (hfresh : Databases.affected pk rid rows = 0)
    (hcr : Databases.create pk payload (.ok rid) rows = .ok (rec2, rows2))
    (item_id : Int) (payloadA mA : Row) (rowsA rowsA2 : List Row)
    (hndA : (payloadA.map Prod.fst).Nodup)
    (hidA : dget payloadA "id" = none)
    (hup : Tortoise.update item_id payloadA rowsA = .ok (mA, rowsA2)) :
    Databases.get_one pk rid rows2 = .ok (dmerge payload [(pk, rid)])
    ∧ (∀ k, k ≠ pk →
        dget (dmerge payload [(pk, rid)]) k = dget payload k)
    ∧ Tortoise.get_one item_id rowsA2 = .ok mA
    ∧ (∀ k, dget payloadA k ≠ none → dget mA k = dget payloadA k) := by
  simp only [Databases.create, Except.ok.injEq, Prod.mk.injEq] at hcr
  obtain ⟨hrec, hrows⟩ := hcr
  subst hrows
  simp only [Tortoise.update] at hup
  cases hg : Tortoise.get_one item_id
      (Tortoise.execUpdate item_id payloadA rowsA) with
  | error e =>
      rw [hg] at hup
      simp at hup
  | ok m =>
      rw [hg] at hup
      simp only [Except.ok.injEq, Prod.mk.injEq] at hup
      obtain ⟨hm, hrowsA⟩ := hup
      subst hm
      subst hrowsA
      have hh : ((Tortoise.execUpdate item_id payloadA rowsA).filter
          (Tortoise.matchesId item_id)).head? = some m :=
        (tortoise_get_one_ok_iff item_id _ m).mp hg
      rw [tortoise_filter_execUpdate item_id payloadA rowsA hidA,
        List.head?_map] at hh
      refine ⟨?_, ?_, hg, ?_⟩
      · have hsel : Databases.selectWhere pk rid rows = [] :=
          List.length_eq_zero.mp hfresh
        have hmatch :
            Databases.rowMatches pk rid (dmerge payload [(pk, rid)]) = true := by
          simp [Databases.rowMatches, dmerge_single, dget_dset_self]
        have hf : Databases.fetch_one pk rid
            (rows ++ [dmerge payload [(pk, rid)]])
            = some (dmerge payload [(pk, rid)]) := by
          unfold Databases.fetch_one Databases.selectWhere
          have h1 : rows.filter (Databases.rowMatches pk rid) = [] := hsel
          rw [List.filter_append, h1, List.filter_cons_of_pos hmatch]
          rfl
        exact databases_get_one_ok _ _ _ _ hf
      · intro k hk
        rw [dmerge_single, dget_dset_ne _ _ _ _ hk]
      · intro k hk
        cases hr0 : (rowsA.filter (Tortoise.matchesId item_id)).head? with
        | none =>
            rw [hr0] at hh
            simp at hh
        | some r0 =>
            rw [hr0] at hh
            simp at hh
            rw [← hh, dget_dmerge_of_nodup _ _ _ hndA]
            cases hc : dget payloadA k with
            | none => exact absurd hc hk
            | some v => rfl

/-- C8 witness: creating a one-field payload into the empty store with key
one, and updating the stored record with key two. -/
theorem C8_create_get_one_round_trip_witness :
    Databases.get_one "id" 1 [[("x", 5), ("id", 1)]]
      = .ok (dmerge [("x", 5)] [("id", 1)])
    ∧ dget (dmerge [("x", (5 : Int))] [("id", 1)]) "x"
        = dget [("x", (5 : Int))] "x"
    ∧ Tortoise.get_one 2 [[("id", 2), ("x", 7)]] = .ok [("id", 2), ("x", 7)]
    ∧ dget [("id", (2 : Int)), ("x", 7)] "x" = dget [("x", (7 : Int))] "x" := by
  have h := C8_create_get_one_round_trip "id" [("x", 5)] 1 []
      [("id", 1), ("x", 5)] [[("x", 5), ("id", 1)]] (by decide) rfl
      2 [("x", 7)] [("id", 2), ("x", 7)] [[("id", 2), ("x", 9)]]
      [[("id", 2), ("x", 7)]] (by decide) (by decide) rfl
  exact ⟨h.1, h.2.1 "x" (by decide), h.2.2.1, h.2.2.2 "x" (by decide)⟩
